import Mathlib

/-!
Verification of the vpc-eni network/endpoint lifecycle orchestrator
(amazon-vpc-cni-plugins, Windows builder).

The Go sources are shallowly embedded as pure Lean functions:

* The Windows Host Network Service (HNS) is modelled by an explicit
  `HNSServiceState` (networks by name, endpoints by name with their HNS
  object ids, HCN namespaces with their endpoint-id lists) threaded through
  every call, plus an `HNSEnv` oracle that fixes the outcome of each
  fallible external primitive (HNS create/delete requests, hot attach and
  detach, namespace add/remove, `net.InterfaceByName`, `netsh`) and the
  field values HNS assigns in its responses.
* Every call made to an external primitive is recorded in a trace of
  `Event`s so that "issues exactly one create call", "never invokes
  network deletion", etc. are statable.
* Go's `(value, error)` returns become `Except Err` values; functions that
  mutate their receiver/arguments (`ep`, `nw`) return the updated copies.

The repository has two revisions of the Windows builder in its sources:
the `NetBuilder` revision (fields `ShouldExist`/`NoInfraContainer`,
classifier `getInfraContainerID`) and the `netBuilder` revision (field
`UseExisting`, classifier `getNamespaceIdentifier`).  Both are embedded,
in namespaces `NetBuilder` and `netBuilder` respectively.  The single
`Network.shouldExist` field here models `ShouldExist` of the first
revision and `UseExisting` of the second (same descriptor slot, renamed
between revisions).
-/

namespace VpcEni

/-- `containerPrefix` from builder_windows.go: the netns marker for a
workload container sharing an infra container's namespace. -/
def containerNSMarker : String := "container:"

/-- Go `strings.HasPrefix`, modelled over the character list (ASCII
markers only are involved, so byte and character granularity agree). -/
def strHasPfx (s pre : String) : Bool := pre.data.isPrefixOf s.data

/-- Go `strings.TrimPrefix` under a `HasPrefix` guard: drop the marker's
characters. -/
def strTrimPfx (s pre : String) : String := ⟨s.data.drop pre.data.length⟩

/-- Go `strings.Replace(s, ":", "", -1)`: remove every colon. -/
def stripColons (s : String) : String := ⟨s.data.filter (fun c => c ≠ ':')⟩

/-- ASCII lower-casing (for Go `strings.EqualFold(x, "up")`, where both
sides are ASCII). -/
def lowerAscii (s : String) : String := ⟨s.data.map Char.toLower⟩

/-- Go `strings.Split(flags, "|")[0]`: the characters before the first
separator. -/
def firstFlag (flags : String) : String := ⟨flags.data.takeWhile (fun c => c ≠ '|')⟩

/-- Namespace type, from the `NSType` enum of the `netBuilder` revision. -/
inductive NSType where
  | infraContainerNS
  | nonInfraContainerNS
  | hcsNamespace
  deriving DecidableEq, Repr

/-- Errors surfaced by the embedded functions.  Each constructor stands
for one distinct `error` value produced in the Go sources (or received
from an external primitive). -/
inductive Err where
  | hnsVersionUnsupported
  | networkNotFound
  | createNetworkFailed
  | deleteNetworkReqFailed
  | endpointNotFound (name : String)
  | createEndpointFailed
  | deleteEndpointReqFailed
  | hotAttachFailed
  | hotDetachFailed
  | nsNotFound
  | addNsFailed
  | removeNsFailed
  | ifaceNotFound
  | netshFailed
  | parseNetnsFailed (netns : String)
  deriving DecidableEq, Repr

/-- Model of the ENI collaborator (`network/eni`, outside the embedded
sources): the orchestrator only reads the link name and MAC address. -/
structure ENI where
  linkName : String
  macAddress : String
  deriving DecidableEq, Repr

/-- The `Network` descriptor built by the lifecycle handler.  IP-typed Go
fields (`net.IPNet`, `net.IP`) are carried as strings; `none` models a nil
pointer. -/
structure Network where
  name : String := ""
  eni : Option ENI := none
  ipAddress : Option String := none
  gatewayIP : Option String := none
  dnsServers : List String := []
  dnsSuffixSearchList : List String := []
  shouldExist : Bool := false
  deriving DecidableEq, Repr

/-- The `Endpoint` descriptor built by the lifecycle handler.
`noInfraContainer` is only read by the `NetBuilder` revision. -/
structure Endpoint where
  containerID : String := ""
  netNSName : String := ""
  ipAddress : Option String := none
  macAddress : Option String := none
  noInfraContainer : Bool := false
  deriving DecidableEq, Repr

/-- The hnswrapper `HNSNetwork` request structure. -/
structure HNSNetworkCfg where
  name : String := ""
  type : String := ""
  networkAdapterName : String := ""
  addressPfx : String := ""
  gateway : String := ""
  shouldExist : Bool := false
  deriving DecidableEq, Repr

/-- The hnswrapper `HCSNamespace` structure. -/
structure HCSNamespace where
  useNamespace : Bool := false
  netNSName : String := ""
  deriving DecidableEq, Repr

/-- The hnswrapper `AttachedContainer` structure. -/
structure AttachedContainer where
  containerID : String := ""
  isInfraContainer : Bool := false
  infraContainerID : String := ""
  deriving DecidableEq, Repr

/-- The hnswrapper `HNSEndpoint` request structure (policies elided: the
embedded orchestrator code never sets them). -/
structure HNSEndpointCfg where
  id : String := ""
  name : String := ""
  virtualNetworkName : String := ""
  dnsSuffix : String := ""
  dnsServerList : String := ""
  macAddress : String := ""
  ipAddress : Option String := none
  gateway : String := ""
  netNS : HCSNamespace := {}
  container : AttachedContainer := {}
  deriving DecidableEq, Repr

/-- Durable state of the Host Network Service: networks by name,
endpoints as (name, HNS object id) pairs, HCN namespaces as
(namespace name, endpoint-id list) pairs.  HNS names are unique keys. -/
structure HNSServiceState where
  networks : List String := []
  endpoints : List (String × String) := []
  namespaces : List (String × List String) := []
  deriving DecidableEq, Repr

/-- `hcsshim.GetHNSEndpointByName`: look up an endpoint's id by name. -/
def getHNSEndpointByName (s : HNSServiceState) (name : String) : Option String :=
  (s.endpoints.find? (fun e => e.1 == name)).map (fun e => e.2)

/-- `hcn.GetNamespaceEndpointIds`: the endpoint ids of a namespace, or
failure when the namespace does not exist. -/
def getNamespaceEndpointIds (s : HNSServiceState) (ns : String) : Option (List String) :=
  (s.namespaces.find? (fun e => e.1 == ns)).map (fun e => e.2)

/-- Fields of an HNS response to an endpoint find/create, used by
`populateEndpointFieldsFromResponse` (HNS-assigned values are supplied by
the environment oracle). -/
structure HNSResponse where
  id : String := ""
  ipAddress : String := ""
  macAddress : String := ""
  gateway : String := ""
  deriving DecidableEq, Repr

/-- Outcome of `hcsshim.HotDetachEndpoint`: success, the tolerated
`ErrComputeSystemDoesNotExist`, or any other failure. -/
inductive HotDetachResult where
  | ok
  | computeSystemDoesNotExist
  | failed
  deriving DecidableEq, Repr

/-- Oracle fixing the outcome of every fallible external primitive for
one invocation, and the values HNS assigns in its responses. -/
structure HNSEnv where
  hnsVersionOk : Bool := true
  createNetworkOk : Bool := true
  deleteNetworkReqOk : Bool := true
  createEndpointOk : Bool := true
  deleteEndpointReqOk : Bool := true
  hotAttachOk : Bool := true
  hotDetachResult : HotDetachResult := .ok
  addNsOk : Bool := true
  removeNsOk : Bool := true
  ifaceFlags : Option String := some "up|broadcast|multicast"
  netshOk : Bool := true
  hnsResponse : HNSResponse := {}
  deriving DecidableEq, Repr

/-- One call to an external primitive, recorded in execution traces.
`deleteNetworkCall` / `deleteEndpointCall` / `attachCall` record entry
into the corresponding hnswrapper operations (the Host Network Service
primitives of the spec); the other constructors record the underlying
hcsshim/hcn requests. -/
inductive Event where
  | createNetwork (cfg : HNSNetworkCfg)
  | deleteNetworkCall (name : String)
  | deleteNetworkReq (name : String)
  | createEndpoint (cfg : HNSEndpointCfg)
  | deleteEndpointCall (name : String)
  | deleteEndpointReq (name : String)
  | attachCall (name : String)
  | hotAttach (containerID : String) (id : String)
  | hotDetach (containerID : String) (id : String)
  | addNsEndpoint (ns : String) (id : String)
  | removeNsEndpoint (ns : String) (id : String)
  | disableIface (name : String)
  deriving DecidableEq, Repr

/-- Result of a state-changing operation returning only an error. -/
structure OpRes where
  state : HNSServiceState
  trace : List Event
  result : Except Err Unit

/-- Result of `FindOrCreateHNSNetwork`: the `existing` flag on success. -/
structure FindNetRes where
  state : HNSServiceState
  trace : List Event
  result : Except Err Bool

/-- Result of `FindOrCreateHNSEndpoint`: the `existing` flag and the
endpoint structure populated from the HNS response. -/
structure FindEpRes where
  state : HNSServiceState
  trace : List Event
  result : Except Err (Bool × HNSEndpointCfg)

namespace builder

/-- hcsshimV2_windows.go `FindOrCreateHNSNetwork`: return an existing
network by name; fail when `ShouldExist` and not found; otherwise issue a
POST creating the network from the request config. -/
def FindOrCreateHNSNetwork (env : HNSEnv) (s : HNSServiceState)
    (nw : HNSNetworkCfg) : FindNetRes :=
  if s.networks.contains nw.name then
    { state := s, trace := [], result := .ok true }
  else if nw.shouldExist then
    { state := s, trace := [], result := .error .networkNotFound }
  else if env.createNetworkOk then
    { state := { s with networks := nw.name :: s.networks },
      trace := [.createNetwork nw], result := .ok false }
  else
    { state := s, trace := [.createNetwork nw], result := .error .createNetworkFailed }

/-- hcsshimV2_windows.go `DeleteHNSNetwork`: resolve the network by name
(not finding it is an error) and issue a DELETE request. -/
def DeleteHNSNetwork (env : HNSEnv) (s : HNSServiceState)
    (nw : HNSNetworkCfg) : OpRes :=
  if s.networks.contains nw.name then
    if env.deleteNetworkReqOk then
      { state := { s with networks := s.networks.filter (fun n => n ≠ nw.name) },
        trace := [.deleteNetworkCall nw.name, .deleteNetworkReq nw.name],
        result := .ok () }
    else
      { state := s,
        trace := [.deleteNetworkCall nw.name, .deleteNetworkReq nw.name],
        result := .error .deleteNetworkReqFailed }
  else
    { state := s, trace := [.deleteNetworkCall nw.name],
      result := .error .networkNotFound }

/-- hcsshimV2_windows.go `populateEndpointFieldsFromResponse`: copy the
HNS-assigned id/IP/MAC/gateway into the endpoint structure. -/
def populateEndpointFieldsFromResponse (id : String) (resp : HNSResponse)
    (ep : HNSEndpointCfg) : HNSEndpointCfg :=
  { ep with
    id := id
    ipAddress := some resp.ipAddress
    macAddress := resp.macAddress
    gateway := resp.gateway }

/-- hcsshimV2_windows.go `FindOrCreateHNSEndpoint`: return an existing
endpoint by name; when absent, refuse to create for a non-infra,
non-namespace request; otherwise POST the creation request and populate
the endpoint from the response. -/
def FindOrCreateHNSEndpoint (env : HNSEnv) (s : HNSServiceState)
    (ep : HNSEndpointCfg) : FindEpRes :=
  match getHNSEndpointByName s ep.name with
  | some id =>
    { state := s, trace := [],
      result := .ok (true, populateEndpointFieldsFromResponse id env.hnsResponse ep) }
  | none =>
    if !ep.container.isInfraContainer && !ep.netNS.useNamespace then
      { state := s, trace := [], result := .error (.endpointNotFound ep.name) }
    else if env.createEndpointOk then
      { state := { s with endpoints := (ep.name, env.hnsResponse.id) :: s.endpoints },
        trace := [.createEndpoint ep],
        result := .ok (false,
          populateEndpointFieldsFromResponse env.hnsResponse.id env.hnsResponse ep) }
    else
      { state := s, trace := [.createEndpoint ep],
        result := .error .createEndpointFailed }

/-- hcsshimV1_windows.go `attachEndpointV1`:
`hcsshim.HotAttachEndpoint(ep.Container.ContainerID, ep.ID)`. -/
def attachEndpointV1 (env : HNSEnv) (s : HNSServiceState)
    (ep : HNSEndpointCfg) : OpRes :=
  { state := s, trace := [.hotAttach ep.container.containerID ep.id],
    result := if env.hotAttachOk then .ok () else .error .hotAttachFailed }

/-- hcsshimV2_windows.go `attachEndpointV2`: list the namespace's
endpoints (failure when the namespace is missing); the source's
containment loop guards on `endpointID == endpointID`, comparing each id
with itself, so any non-empty list short-circuits to success; only an
empty list reaches `hcn.AddNamespaceEndpoint`. -/
def attachEndpointV2 (env : HNSEnv) (s : HNSServiceState)
    (ep : HNSEndpointCfg) : OpRes :=
  match getNamespaceEndpointIds s ep.netNS.netNSName with
  | none => { state := s, trace := [], result := .error .nsNotFound }
  | some nsEndpoints =>
    if nsEndpoints.any (fun endpointID => endpointID == endpointID) then
      { state := s, trace := [], result := .ok () }
    else if env.addNsOk then
      let nss := s.namespaces.map (fun e =>
        if e.1 == ep.netNS.netNSName then (e.1, e.2 ++ [ep.id]) else e)
      { state := { s with namespaces := nss },
        trace := [.addNsEndpoint ep.netNS.netNSName ep.id], result := .ok () }
    else
      { state := s, trace := [.addNsEndpoint ep.netNS.netNSName ep.id],
        result := .error .addNsFailed }

/-- hcsshimV2_windows.go `AttachEndpoint`: dispatch to the namespace (V2)
or container (V1) attach path. -/
def AttachEndpoint (env : HNSEnv) (s : HNSServiceState)
    (ep : HNSEndpointCfg) : OpRes :=
  let r := if ep.netNS.useNamespace then attachEndpointV2 env s ep
           else attachEndpointV1 env s ep
  { r with trace := .attachCall ep.name :: r.trace }

/-- hcsshimV1_windows.go `deleteHNSEndpointV1`: resolve by name, hot
detach (tolerating `ErrComputeSystemDoesNotExist`), and delete the HNS
endpoint object only for the infrastructure container. -/
def deleteHNSEndpointV1 (env : HNSEnv) (s : HNSServiceState)
    (ep : HNSEndpointCfg) : OpRes :=
  match getHNSEndpointByName s ep.name with
  | none => { state := s, trace := [], result := .error (.endpointNotFound ep.name) }
  | some id =>
    let t0 : List Event := [.hotDetach ep.container.containerID id]
    if env.hotDetachResult = .failed then
      { state := s, trace := t0, result := .error .hotDetachFailed }
    else if !ep.container.isInfraContainer then
      { state := s, trace := t0, result := .ok () }
    else if env.deleteEndpointReqOk then
      { state := { s with endpoints := s.endpoints.filter (fun e => e.1 ≠ ep.name) },
        trace := t0 ++ [.deleteEndpointReq ep.name], result := .ok () }
    else
      { state := s, trace := t0 ++ [.deleteEndpointReq ep.name],
        result := .error .deleteEndpointReqFailed }

/-- hcsshimV2_windows.go `deleteHNSEndpointV2`: resolve by name, remove
the endpoint from its namespace (failure aborts), then delete the HNS
endpoint object. -/
def deleteHNSEndpointV2 (env : HNSEnv) (s : HNSServiceState)
    (ep : HNSEndpointCfg) : OpRes :=
  match getHNSEndpointByName s ep.name with
  | none => { state := s, trace := [], result := .error (.endpointNotFound ep.name) }
  | some id =>
    match getNamespaceEndpointIds s ep.netNS.netNSName with
    | none =>
      { state := s, trace := [.removeNsEndpoint ep.netNS.netNSName id],
        result := .error .nsNotFound }
    | some _ =>
      if env.removeNsOk then
        let nss := s.namespaces.map (fun e =>
          if e.1 == ep.netNS.netNSName then (e.1, e.2.filter (fun i => i ≠ id)) else e)
        let s1 : HNSServiceState := { s with namespaces := nss }
        if env.deleteEndpointReqOk then
          { state := { s1 with endpoints := s1.endpoints.filter (fun e => e.1 ≠ ep.name) },
            trace := [.removeNsEndpoint ep.netNS.netNSName id, .deleteEndpointReq ep.name],
            result := .ok () }
        else
          { state := s1,
            trace := [.removeNsEndpoint ep.netNS.netNSName id, .deleteEndpointReq ep.name],
            result := .error .deleteEndpointReqFailed }
      else
        { state := s, trace := [.removeNsEndpoint ep.netNS.netNSName id],
          result := .error .removeNsFailed }

/-- hcsshimV2_windows.go `DeleteHNSEndpoint`: dispatch to the namespace
(V2) or container (V1) delete path. -/
def DeleteHNSEndpoint (env : HNSEnv) (s : HNSServiceState)
    (ep : HNSEndpointCfg) : OpRes :=
  let r := if ep.netNS.useNamespace then deleteHNSEndpointV2 env s ep
           else deleteHNSEndpointV1 env s ep
  { r with trace := .deleteEndpointCall ep.name :: r.trace }

end builder

/-- builder_windows.go `generateHNSNetworkName`: `ShouldExist` networks
keep the caller-supplied name; otherwise `task-br-<mac>` with the ENI MAC
address separators stripped (empty string modelling the nil-ENI case that
the Go code would never reach when creating). -/
def generateHNSNetworkName (nw : Network) : String :=
  if nw.shouldExist then nw.name
  else
    let mac := match nw.eni with | some e => e.macAddress | none => ""
    "task-br-" ++ stripColons mac

/-- builder_windows.go `generateHNSEndpointName`: `<network>-ep-<id>`. -/
def generateHNSEndpointName (networkName identifier : String) : String :=
  networkName ++ "-ep-" ++ identifier

/-- Model of Go `net.ParseMAC` used as `ep.MACAddress, _ = net.ParseMAC(x)`:
a failed parse leaves a nil address; parsing itself is modelled as
accepting any non-empty string. -/
def parseMACOpt (s : String) : Option String :=
  if s == "" then none else some s

/-- Model of Go `net.ParseIP` (nil on failure), as for `parseMACOpt`. -/
def parseIPOpt (s : String) : Option String :=
  if s == "" then none else some s

/-- Result of a builder operation that also updates the `Network`
descriptor passed by pointer in Go. -/
structure NetRes where
  state : HNSServiceState
  trace : List Event
  result : Except Err Unit
  nw : Network

/-- Result of a builder operation updating both descriptors. -/
structure EpRes where
  state : HNSServiceState
  trace : List Event
  result : Except Err Unit
  nw : Network
  ep : Endpoint

namespace NetBuilder

/-- builder_windows.go (`NetBuilder` revision) `getInfraContainerID`:
empty/"none" netns is the infra container; a `container:` marker names
the infra container whose namespace is shared; anything else is a parse
failure. -/
def getInfraContainerID (ep : Endpoint) : Except Err (Bool × String) :=
  if ep.netNSName == "" || ep.netNSName == "none" then
    .ok (true, ep.containerID)
  else if strHasPfx ep.netNSName containerNSMarker then
    .ok (false, strTrimPfx ep.netNSName containerNSMarker)
  else
    .error (.parseNetnsFailed ep.netNSName)

/-- builder_windows.go `disableInterface`: look up the interface (flags
supplied by the environment, `none` when `net.InterfaceByName` fails);
when its first flag is "up", run the netsh disable command. -/
def disableInterface (env : HNSEnv) (adapterName : String) :
    List Event × Except Err Unit :=
  match env.ifaceFlags with
  | none => ([], .error .ifaceNotFound)
  | some flags =>
    let isInterfaceEnabled := lowerAscii (firstFlag flags) == "up"
    if isInterfaceEnabled then
      if env.netshOk then ([.disableIface adapterName], .ok ())
      else ([.disableIface adapterName], .error .netshFailed)
    else ([], .ok ())

/-- The `hnswrapper.HNSNetwork` request that `FindOrCreateNetwork` builds:
name, Transparent type, `ShouldExist`, adapter link name, subnet of the
network's IP (via the `vpc.GetSubnetPrefix` collaborator, passed in as
`subnetPfxOf`), and gateway. -/
def networkCfg (subnetPfxOf : String → String) (nw : Network) : HNSNetworkCfg :=
  { name := generateHNSNetworkName nw
    type := "Transparent"
    shouldExist := nw.shouldExist
    networkAdapterName := match nw.eni with | some e => e.linkName | none => ""
    addressPfx := match nw.ipAddress with | some ip => subnetPfxOf ip | none => ""
    gateway := match nw.gatewayIP with | some g => g | none => "" }

/-- builder_windows.go `DeleteNetwork`: delete the HNS network by the
descriptor's name. -/
def DeleteNetwork (env : HNSEnv) (s : HNSServiceState) (nw : Network) : OpRes :=
  builder.DeleteHNSNetwork env s { name := nw.name }

/-- The management vNIC name `vEthernet (<link>)` that
`FindOrCreateNetwork` disables after creating a new network. -/
def mgmtIfaceName (nw : Network) : String :=
  "vEthernet (" ++ (match nw.eni with | some e => e.linkName | none => "") ++ ")"

/-- builder_windows.go `FindOrCreateNetwork`: check the HNS version,
compute the deterministic name, find or create the HNS network, and, when
a new network was created, disable the management vNIC, rolling back by
deleting the new network if disabling fails. -/
def FindOrCreateNetwork (env : HNSEnv) (s : HNSServiceState)
    (subnetPfxOf : String → String) (nw : Network) : NetRes :=
  if !env.hnsVersionOk then
    { state := s, trace := [], result := .error .hnsVersionUnsupported, nw := nw }
  else
    let nw1 : Network := { nw with name := generateHNSNetworkName nw }
    let r1 := builder.FindOrCreateHNSNetwork env s (networkCfg subnetPfxOf nw)
    match r1.result with
    | .error e =>
      { state := r1.state, trace := r1.trace, result := .error e, nw := nw1 }
    | .ok existing =>
      if !existing then
        let d := disableInterface env (mgmtIfaceName nw)
        match d.2 with
        | .error e =>
          let r2 := DeleteNetwork env r1.state nw1
          { state := r2.state, trace := r1.trace ++ d.1 ++ r2.trace,
            result := .error e, nw := nw1 }
        | .ok _ =>
          { state := r1.state, trace := r1.trace ++ d.1, result := .ok (), nw := nw1 }
      else
        { state := r1.state, trace := r1.trace, result := .ok (), nw := nw1 }

/-- builder_windows.go (`NetBuilder` revision) `DeleteEndpoint`:
regenerate the network name, classify via `getInfraContainerID` (netns
path for `NoInfraContainer`), mark the network as must-exist for
non-infra containers, and delete the HNS endpoint. -/
def DeleteEndpoint (env : HNSEnv) (s : HNSServiceState)
    (nw : Network) (ep : Endpoint) : NetRes :=
  let nw1 : Network := { nw with name := generateHNSNetworkName nw }
  if ep.noInfraContainer then
    let cfg : HNSEndpointCfg :=
      { name := generateHNSEndpointName nw1.name ep.netNSName
        netNS := { useNamespace := true, netNSName := ep.netNSName } }
    let r := builder.DeleteHNSEndpoint env s cfg
    { state := r.state, trace := r.trace, result := r.result, nw := nw1 }
  else
    match getInfraContainerID ep with
    | .error e => { state := s, trace := [], result := .error e, nw := nw1 }
    | .ok (isInfraContainer, infraContainerID) =>
      let cfg : HNSEndpointCfg :=
        { name := generateHNSEndpointName nw1.name infraContainerID
          container := { containerID := ep.containerID
                         isInfraContainer := isInfraContainer
                         infraContainerID := infraContainerID } }
      let nw2 := if !isInfraContainer then { nw1 with shouldExist := true } else nw1
      let r := builder.DeleteHNSEndpoint env s cfg
      { state := r.state, trace := r.trace, result := r.result, nw := nw2 }

end NetBuilder

namespace netBuilder

/-- builder_windows.go (`netBuilder` revision) `getNamespaceIdentifier`:
empty/"none" classifies as the infra container (group id = container id);
a `container:` marker classifies as a workload container sharing the
infra container's netns (group id = the suffix); anything else is treated
as an HCS namespace id (group id = the reference itself). -/
def getNamespaceIdentifier (ep : Endpoint) : NSType × String :=
  if ep.netNSName == "" || ep.netNSName == "none" then
    (.infraContainerNS, ep.containerID)
  else if strHasPfx ep.netNSName containerNSMarker then
    (.nonInfraContainerNS, strTrimPfx ep.netNSName containerNSMarker)
  else
    (.hcsNamespace, ep.netNSName)

/-- The `hnswrapper.HNSEndpoint` request that the `netBuilder` revision's
`FindOrCreateEndpoint` builds before calling `FindOrCreateHNSEndpoint`:
owning network name, DNS lists joined with ",", MAC/IP when supplied, and
the attachment-mode fields from `getNamespaceIdentifier`. -/
def endpointCfg (nw : Network) (ep : Endpoint) : HNSEndpointCfg :=
  let nsInfo := getNamespaceIdentifier ep
  let base : HNSEndpointCfg :=
    { name := generateHNSEndpointName nw.name nsInfo.2
      virtualNetworkName := nw.name
      dnsServerList := String.intercalate "," nw.dnsServers
      dnsSuffix := String.intercalate "," nw.dnsSuffixSearchList
      macAddress := match ep.macAddress with | some m => m | none => ""
      ipAddress := ep.ipAddress }
  if nsInfo.1 = NSType.hcsNamespace then
    { base with netNS := { useNamespace := true, netNSName := nsInfo.2 } }
  else
    { base with container :=
        { containerID := ep.containerID
          isInfraContainer := nsInfo.1 == NSType.infraContainerNS
          infraContainerID := nsInfo.2 } }

/-- builder_windows.go (`netBuilder` revision) `FindOrCreateEndpoint`:
find or create the HNS endpoint; copy the assigned fields back into the
descriptors; for an existing endpoint, re-attach only in the non-infra,
non-namespace case; for a new endpoint, attach and delete it again if the
attach fails, propagating the attach error. -/
def FindOrCreateEndpoint (env : HNSEnv) (s : HNSServiceState)
    (nw : Network) (ep : Endpoint) : EpRes :=
  let r1 := builder.FindOrCreateHNSEndpoint env s (endpointCfg nw ep)
  match r1.result with
  | .error e =>
    { state := r1.state, trace := r1.trace, result := .error e, nw := nw, ep := ep }
  | .ok (existing, cfg) =>
    let ep1 : Endpoint :=
      { ep with ipAddress := cfg.ipAddress, macAddress := parseMACOpt cfg.macAddress }
    let nw1 : Network := { nw with gatewayIP := parseIPOpt cfg.gateway }
    if existing then
      if cfg.container.isInfraContainer || cfg.netNS.useNamespace then
        { state := r1.state, trace := r1.trace, result := .ok (), nw := nw1, ep := ep1 }
      else
        let r2 := builder.AttachEndpoint env r1.state cfg
        { state := r2.state, trace := r1.trace ++ r2.trace, result := r2.result,
          nw := nw1, ep := ep1 }
    else
      let r2 := builder.AttachEndpoint env r1.state cfg
      match r2.result with
      | .ok _ =>
        { state := r2.state, trace := r1.trace ++ r2.trace, result := .ok (),
          nw := nw1, ep := ep1 }
      | .error e =>
        let r3 := builder.DeleteHNSEndpoint env r2.state cfg
        { state := r3.state, trace := r1.trace ++ r2.trace ++ r3.trace,
          result := .error e, nw := nw1, ep := ep1 }

/-- builder_windows.go (`netBuilder` revision) `DeleteEndpoint`:
regenerate the network name, classify via `getNamespaceIdentifier`, mark
the network descriptor as `UseExisting` (modelled by `shouldExist`) for
non-infra containers, and delete the HNS endpoint. -/
def DeleteEndpoint (env : HNSEnv) (s : HNSServiceState)
    (nw : Network) (ep : Endpoint) : NetRes :=
  let nw1 : Network := { nw with name := generateHNSNetworkName nw }
  let nsInfo := getNamespaceIdentifier ep
  let epName := generateHNSEndpointName nw1.name nsInfo.2
  if nsInfo.1 = NSType.hcsNamespace then
    let cfg : HNSEndpointCfg :=
      { name := epName
        netNS := { useNamespace := true, netNSName := ep.netNSName } }
    let r := builder.DeleteHNSEndpoint env s cfg
    { state := r.state, trace := r.trace, result := r.result, nw := nw1 }
  else
    let cfg : HNSEndpointCfg :=
      { name := epName
        container := { containerID := ep.containerID
                       isInfraContainer := nsInfo.1 == NSType.infraContainerNS
                       infraContainerID := nsInfo.2 } }
    let nw2 := if nsInfo.1 = NSType.nonInfraContainerNS then
                 { nw1 with shouldExist := true }
               else nw1
    let r := builder.DeleteHNSEndpoint env s cfg
    { state := r.state, trace := r.trace, result := r.result, nw := nw2 }

end netBuilder

/-- The already-validated CNI network configuration consumed by the
lifecycle handler (produced by the Config Parser collaborator). -/
structure NetConfig where
  name : String := ""
  eniName : String := ""
  eniMACAddress : String := ""
  eniIPAddress : Option String := none
  gatewayIPAddress : Option String := none
  dnsNameservers : List String := []
  dnsSearch : List String := []
  useExistingNetwork : Bool := false
  noInfraContainer : Bool := false
  deriving DecidableEq, Repr

namespace Plugin

/-- The `Network` descriptor that the DEL handler builds from its parsed
configuration (`eni.NewENI(netConfig.ENIName, netConfig.ENIMACAddress)`
modelled by an `ENI` record). -/
def delNetwork (netConfig : NetConfig) : Network :=
  { name := netConfig.name
    eni := some { linkName := netConfig.eniName, macAddress := netConfig.eniMACAddress }
    shouldExist := netConfig.useExistingNetwork }

/-- The `Endpoint` descriptor that the DEL handler builds from its parsed
configuration and invocation arguments. -/
def delEndpoint (netConfig : NetConfig) (containerID netns : String) : Endpoint :=
  { containerID := containerID
    netNSName := netns
    ipAddress := netConfig.eniIPAddress
    macAddress := some netConfig.eniMACAddress
    noInfraContainer := netConfig.noInfraContainer }

/-- plugin commands.go `Del`: delete the endpoint (best-effort, failures
logged and ignored), then, unless the network descriptor says the network
is re-used (`ShouldExist`, possibly set by `DeleteEndpoint`), delete the
network and surface its failure. -/
def Del (env : HNSEnv) (s : HNSServiceState) (netConfig : NetConfig)
    (containerID netns : String) : OpRes :=
  let r1 := NetBuilder.DeleteEndpoint env s (delNetwork netConfig)
    (delEndpoint netConfig containerID netns)
  if !r1.nw.shouldExist then
    let r2 := NetBuilder.DeleteNetwork env r1.state r1.nw
    match r2.result with
    | .error e =>
      { state := r2.state, trace := r1.trace ++ r2.trace, result := .error e }
    | .ok _ =>
      { state := r2.state, trace := r1.trace ++ r2.trace, result := .ok () }
  else
    { state := r1.state, trace := r1.trace, result := .ok () }

end Plugin

/-- Recognizer for HNS network-creation requests in a trace. -/
def Event.isCreateNetwork : Event → Bool
  | .createNetwork _ => true
  | _ => false

/-- Recognizer for network deletion activity in a trace (entry into
`DeleteHNSNetwork` or the underlying DELETE request). -/
def Event.isNetworkDelete : Event → Bool
  | .deleteNetworkCall _ => true
  | .deleteNetworkReq _ => true
  | _ => false

/-- Recognizer for management-interface disable activity in a trace. -/
def Event.isDisableIface : Event → Bool
  | .disableIface _ => true
  | _ => false

/-- Recognizer for HNS endpoint-creation requests in a trace. -/
def Event.isCreateEndpoint : Event → Bool
  | .createEndpoint _ => true
  | _ => false

/-- Recognizer for HNS endpoint DELETE requests in a trace. -/
def Event.isDeleteEndpointReq : Event → Bool
  | .deleteEndpointReq _ => true
  | _ => false

/-- Recognizer for `hcn.AddNamespaceEndpoint` calls in a trace. -/
def Event.isAddNsEndpoint : Event → Bool
  | .addNsEndpoint _ _ => true
  | _ => false

/-- The service state right after `FindOrCreateHNSEndpoint` has created
the endpoint named `name` (the id being HNS-assigned). -/
def createdEpState (env : HNSEnv) (s : HNSServiceState) (name : String) :
    HNSServiceState :=
  { s with endpoints := (name, env.hnsResponse.id) :: s.endpoints }

/-- The endpoint request structure as it stands right after a successful
create in `FindOrCreateEndpoint` (fields populated from the response). -/
def netBuilderPopulatedCfg (env : HNSEnv) (nw : Network) (ep : Endpoint) :
    HNSEndpointCfg :=
  builder.populateEndpointFieldsFromResponse env.hnsResponse.id env.hnsResponse
    (netBuilder.endpointCfg nw ep)

/-! ## Helper lemmas -/

/-- A netns carrying the `container:` marker is neither empty nor "none". -/
theorem marker_netns_ne_empty_none (s : String)
    (h : strHasPfx s containerNSMarker = true) :
    s ≠ "" ∧ s ≠ "none" := by
  constructor
  · intro hs
    subst hs
    exact absurd h (by decide)
  · intro hs
    subst hs
    exact absurd h (by decide)

/-- `disableInterface` never issues a network-creation request. -/
theorem disableInterface_no_createNetwork (env : HNSEnv) (a : String) :
    (NetBuilder.disableInterface env a).1.filter Event.isCreateNetwork = [] := by
  unfold NetBuilder.disableInterface
  split
  · rfl
  · dsimp only
    split
    · split <;> rfl
    · rfl

/-- `DeleteHNSNetwork` never issues a network-creation request. -/
theorem deleteHNSNetwork_no_createNetwork (env : HNSEnv) (s : HNSServiceState)
    (nw : HNSNetworkCfg) :
    (builder.DeleteHNSNetwork env s nw).trace.filter Event.isCreateNetwork = [] := by
  unfold builder.DeleteHNSNetwork
  split
  · split <;> rfl
  · rfl

/-- Removing a name from a name list makes `contains` false for it. -/
theorem contains_filter_ne_self (l : List String) (a : String) :
    (l.filter (fun n => n ≠ a)).contains a = false := by
  induction l with
  | nil => rfl
  | cons x xs ih =>
    by_cases hx : x = a
    · simp [List.filter_cons, hx, ih]
    · simp [List.filter_cons, hx, ih]
      exact Ne.symm hx

/-- Removing an endpoint by name from the store makes lookup miss it. -/
theorem find?_filter_ne_self (l : List (String × String)) (a : String) :
    (l.filter (fun e => e.1 ≠ a)).find? (fun e => e.1 == a) = none := by
  induction l with
  | nil => rfl
  | cons x xs ih =>
    by_cases hx : x.1 = a
    · simp [List.filter_cons, hx, ih]
    · simp [List.filter_cons, hx, List.find?_cons, ih]

/-- Looking up an endpoint in a store from which it was just removed by
name misses. -/
theorem getHNSEndpointByName_of_filtered (nets : List String)
    (eps : List (String × String)) (nss : List (String × List String)) (a : String) :
    getHNSEndpointByName
      { networks := nets, endpoints := eps.filter (fun e => !decide (e.1 = a)),
        namespaces := nss }
      a = none := by
  have h : (fun (e : String × String) => !decide (e.1 = a)) =
      (fun (e : String × String) => decide (e.1 ≠ a)) := by
    funext e
    simp [decide_not]
  rw [h]
  simp [getHNSEndpointByName, find?_filter_ne_self]

/-- `DeleteHNSEndpoint` leaves the network store untouched. -/
theorem deleteHNSEndpoint_networks (env : HNSEnv) (s : HNSServiceState)
    (ep : HNSEndpointCfg) :
    (builder.DeleteHNSEndpoint env s ep).state.networks = s.networks := by
  unfold builder.DeleteHNSEndpoint
  split
  · unfold builder.deleteHNSEndpointV2
    dsimp only
    split
    · rfl
    · split
      · rfl
      · split
        · split <;> rfl
        · rfl
  · unfold builder.deleteHNSEndpointV1
    dsimp only
    split
    · rfl
    · split
      · rfl
      · split
        · rfl
        · split <;> rfl

/-- `DeleteHNSEndpoint` never issues network-deletion activity. -/
theorem deleteHNSEndpoint_no_networkDelete (env : HNSEnv) (s : HNSServiceState)
    (ep : HNSEndpointCfg) :
    (builder.DeleteHNSEndpoint env s ep).trace.filter Event.isNetworkDelete = [] := by
  unfold builder.DeleteHNSEndpoint
  split
  · unfold builder.deleteHNSEndpointV2
    dsimp only
    split
    · rfl
    · split
      · rfl
      · split
        · split <;> rfl
        · rfl
  · unfold builder.deleteHNSEndpointV1
    dsimp only
    split
    · rfl
    · split
      · rfl
      · split
        · rfl
        · split <;> rfl

/-- A successful `DeleteHNSEndpoint` for an infra-container or namespace
endpoint removes the endpoint from the store. -/
theorem deleteHNSEndpoint_ok_removes (env : HNSEnv) (s : HNSServiceState)
    (ep : HNSEndpointCfg)
    (hmode : (ep.container.isInfraContainer || ep.netNS.useNamespace) = true)
    (hok : (builder.DeleteHNSEndpoint env s ep).result = .ok ()) :
    getHNSEndpointByName (builder.DeleteHNSEndpoint env s ep).state ep.name = none := by
  cases hu : ep.netNS.useNamespace with
  | true =>
    cases hfind : getHNSEndpointByName s ep.name with
    | none =>
      simp [builder.DeleteHNSEndpoint, builder.deleteHNSEndpointV2, hu, hfind] at hok
    | some i =>
      cases hns : getNamespaceEndpointIds s ep.netNS.netNSName with
      | none =>
        simp [builder.DeleteHNSEndpoint, builder.deleteHNSEndpointV2, hu, hfind, hns] at hok
      | some ids =>
        cases hrm : env.removeNsOk with
        | false =>
          simp [builder.DeleteHNSEndpoint, builder.deleteHNSEndpointV2, hu, hfind, hns,
            hrm] at hok
        | true =>
          cases hreq : env.deleteEndpointReqOk with
          | false =>
            simp [builder.DeleteHNSEndpoint, builder.deleteHNSEndpointV2, hu, hfind, hns,
              hrm, hreq] at hok
          | true =>
            simp only [builder.DeleteHNSEndpoint, builder.deleteHNSEndpointV2, hu, hfind,
              hns, hrm, hreq, if_true]
            simp [getHNSEndpointByName, find?_filter_ne_self]
  | false =>
    have hinfra : ep.container.isInfraContainer = true := by
      cases hc : ep.container.isInfraContainer
      · rw [hc, hu] at hmode; simp at hmode
      · rfl
    cases hfind : getHNSEndpointByName s ep.name with
    | none =>
      simp [builder.DeleteHNSEndpoint, builder.deleteHNSEndpointV1, hu, hfind] at hok
    | some i =>
      by_cases hdet : env.hotDetachResult = HotDetachResult.failed
      · simp [builder.DeleteHNSEndpoint, builder.deleteHNSEndpointV1, hu, hfind, hdet] at hok
      · cases hreq : env.deleteEndpointReqOk with
        | false =>
          simp [builder.DeleteHNSEndpoint, builder.deleteHNSEndpointV1, hu, hfind, hdet,
            hinfra, hreq] at hok
        | true =>
          simp only [builder.DeleteHNSEndpoint, builder.deleteHNSEndpointV1, hu, hfind,
            hdet, hinfra, hreq, if_true]
          simp [hdet, getHNSEndpointByName, find?_filter_ne_self]

/-- `NetBuilder.DeleteEndpoint` leaves the network store untouched. -/
theorem netBuilderV1_DeleteEndpoint_networks (env : HNSEnv) (s : HNSServiceState)
    (nw : Network) (ep : Endpoint) :
    (NetBuilder.DeleteEndpoint env s nw ep).state.networks = s.networks := by
  unfold NetBuilder.DeleteEndpoint
  dsimp only
  split
  · exact deleteHNSEndpoint_networks env s _
  · split
    · rfl
    · exact deleteHNSEndpoint_networks env s _

/-- `NetBuilder.DeleteEndpoint` never issues network-deletion activity. -/
theorem netBuilderV1_DeleteEndpoint_no_networkDelete (env : HNSEnv)
    (s : HNSServiceState) (nw : Network) (ep : Endpoint) :
    (NetBuilder.DeleteEndpoint env s nw ep).trace.filter Event.isNetworkDelete = [] := by
  unfold NetBuilder.DeleteEndpoint
  dsimp only
  split
  · exact deleteHNSEndpoint_no_networkDelete env s _
  · split
    · rfl
    · exact deleteHNSEndpoint_no_networkDelete env s _

/-! ## Claims -/

/-- Claim C4: for every namespace reference string and container
identifier, `getNamespaceIdentifier` yields: infra mode with group id =
container id when the reference is empty or "none"; shared
(non-infra-container) mode with group id = the suffix when the reference
starts with the `container:` marker; and HCS-namespace mode with group
id = the reference itself in every other case. -/
theorem C4_namespace_classifier :
    (∀ ep : Endpoint, ep.netNSName = "" ∨ ep.netNSName = "none" →
      netBuilder.getNamespaceIdentifier ep = (NSType.infraContainerNS, ep.containerID)) ∧
    (∀ ep : Endpoint, strHasPfx ep.netNSName containerNSMarker = true →
      netBuilder.getNamespaceIdentifier ep =
        (NSType.nonInfraContainerNS, strTrimPfx ep.netNSName containerNSMarker)) ∧
    (∀ ep : Endpoint, ep.netNSName ≠ "" → ep.netNSName ≠ "none" →
      strHasPfx ep.netNSName containerNSMarker = false →
      netBuilder.getNamespaceIdentifier ep = (NSType.hcsNamespace, ep.netNSName)) := by
  refine ⟨?_, ?_, ?_⟩
  · intro ep h
    rcases h with h | h <;> simp [netBuilder.getNamespaceIdentifier, h]
  · intro ep h
    obtain ⟨h1, h2⟩ := marker_netns_ne_empty_none _ h
    simp [netBuilder.getNamespaceIdentifier, h1, h2, h]
  · intro ep h1 h2 h3
    simp [netBuilder.getNamespaceIdentifier, h1, h2, h3]

/-- Witness for C4 at the three concrete shapes. -/
theorem C4_namespace_classifier_witness :
    netBuilder.getNamespaceIdentifier { containerID := "c1", netNSName := "" } =
      (NSType.infraContainerNS, "c1") ∧
    netBuilder.getNamespaceIdentifier { containerID := "c2", netNSName := "container:c1" } =
      (NSType.nonInfraContainerNS, strTrimPfx "container:c1" containerNSMarker) ∧
    netBuilder.getNamespaceIdentifier { containerID := "c3", netNSName := "vpcNsA" } =
      (NSType.hcsNamespace, "vpcNsA") :=
  ⟨C4_namespace_classifier.1 _ (Or.inl rfl),
   C4_namespace_classifier.2.1 _ (by decide),
   C4_namespace_classifier.2.2 _ (by decide) (by decide) (by decide)⟩

/-- Claim C5: for every non-empty namespace reference that is not "none"
and does not carry the `container:` marker, `getInfraContainerID` reports
a classification failure to the caller. -/
theorem C5_unrecognized_netns_is_error :
    ∀ ep : Endpoint, ep.netNSName ≠ "" → ep.netNSName ≠ "none" →
      strHasPfx ep.netNSName containerNSMarker = false →
      NetBuilder.getInfraContainerID ep =
        .error (.parseNetnsFailed ep.netNSName) := by
  intro ep h1 h2 h3
  simp [NetBuilder.getInfraContainerID, h1, h2, h3]

/-- Witness for C5 at a concrete malformed reference. -/
theorem C5_unrecognized_netns_is_error_witness :
    NetBuilder.getInfraContainerID { containerID := "c1", netNSName := "badns" } =
      .error (.parseNetnsFailed "badns") :=
  C5_unrecognized_netns_is_error _ (by decide) (by decide) (by decide)

/-- Claim C10: in HCS-namespace mode, whenever the target namespace
already contains at least one endpoint of any identity,
`attachEndpointV2` returns success without issuing an add-to-namespace
call (its containment check compares an endpoint id with itself); the
add call is issued only when the namespace's endpoint list is empty (and
never when the namespace lookup fails). -/
theorem C10_attach_v2_self_comparison :
    (∀ (env : HNSEnv) (s : HNSServiceState) (ep : HNSEndpointCfg) (ids : List String),
      getNamespaceEndpointIds s ep.netNS.netNSName = some ids → ids ≠ [] →
      builder.attachEndpointV2 env s ep =
        { state := s, trace := [], result := .ok () }) ∧
    (∀ (env : HNSEnv) (s : HNSServiceState) (ep : HNSEndpointCfg),
      getNamespaceEndpointIds s ep.netNS.netNSName = some [] →
      (builder.attachEndpointV2 env s ep).trace =
        [.addNsEndpoint ep.netNS.netNSName ep.id]) ∧
    (∀ (env : HNSEnv) (s : HNSServiceState) (ep : HNSEndpointCfg),
      getNamespaceEndpointIds s ep.netNS.netNSName = none →
      (builder.attachEndpointV2 env s ep).trace.filter Event.isAddNsEndpoint = []) := by
  refine ⟨?_, ?_, ?_⟩
  · intro env s ep ids h hne
    cases ids with
    | nil => exact absurd rfl hne
    | cons x xs => simp [builder.attachEndpointV2, h]
  · intro env s ep h
    cases haddNs : env.addNsOk <;>
      simp [builder.attachEndpointV2, h, haddNs]
  · intro env s ep h
    simp [builder.attachEndpointV2, h]

/-- Witness for C10: a namespace holding one unrelated endpoint id, an
empty namespace, and a missing namespace. -/
theorem C10_attach_v2_self_comparison_witness :
    builder.attachEndpointV2 {} { namespaces := [("ns1", ["other-ep"])] }
        { id := "my-ep", netNS := { useNamespace := true, netNSName := "ns1" } } =
      { state := { namespaces := [("ns1", ["other-ep"])] }, trace := [], result := .ok () } ∧
    (builder.attachEndpointV2 {} { namespaces := [("ns2", [])] }
        { id := "my-ep", netNS := { useNamespace := true, netNSName := "ns2" } }).trace =
      [.addNsEndpoint "ns2" "my-ep"] ∧
    (builder.attachEndpointV2 {} {}
        { id := "my-ep", netNS := { useNamespace := true, netNSName := "ns3" } }).trace.filter
        Event.isAddNsEndpoint = [] :=
  ⟨C10_attach_v2_self_comparison.1 _ _ _ ["other-ep"] rfl (by decide),
   C10_attach_v2_self_comparison.2.1 _ _ _ rfl,
   C10_attach_v2_self_comparison.2.2 _ _ _ rfl⟩

/-- Counterexample to C6 as stated: in shared mode (netns
`container:c1`), with no endpoint of the derived name present,
`FindOrCreateEndpoint` returns a not-found error and issues no create
call at all. -/
theorem C6_counterexample :
    (netBuilder.FindOrCreateEndpoint {} { networks := ["task-br-020000000001"] }
        { name := "task-br-020000000001" }
        { containerID := "c2", netNSName := "container:c1" }).result =
      .error (.endpointNotFound "task-br-020000000001-ep-c1") ∧
    (netBuilder.FindOrCreateEndpoint {} { networks := ["task-br-020000000001"] }
        { name := "task-br-020000000001" }
        { containerID := "c2", netNSName := "container:c1" }).trace.filter
        Event.isCreateEndpoint = [] :=
  ⟨rfl, rfl⟩

/-- Counterexample to C8 as stated: in HCS-namespace (external-namespace)
mode, `DeleteEndpoint` deletes the endpoint object itself (after removing
it from the namespace) — the endpoint does not persist. -/
theorem C8_counterexample :
    getHNSEndpointByName
      (netBuilder.DeleteEndpoint {}
        { endpoints := [("task-br-02-ep-ns1", "epid-9")],
          namespaces := [("ns1", ["epid-9"])] }
        { eni := some { linkName := "eni0", macAddress := "02" } }
        { containerID := "c3", netNSName := "ns1" }).state "task-br-02-ep-ns1" = none ∧
    (netBuilder.DeleteEndpoint {}
        { endpoints := [("task-br-02-ep-ns1", "epid-9")],
          namespaces := [("ns1", ["epid-9"])] }
        { eni := some { linkName := "eni0", macAddress := "02" } }
        { containerID := "c3", netNSName := "ns1" }).trace.filter
        Event.isDeleteEndpointReq = [.deleteEndpointReq "task-br-02-ep-ns1"] :=
  ⟨rfl, rfl⟩

/-- Counterexample to C9 as stated: deleting a network whose name is not
present is an error (`DeleteHNSNetwork` propagates the not-found
failure), and a DEL invocation for an absent network fails with it. -/
theorem C9_counterexample :
    (builder.DeleteHNSNetwork {} {} { name := "task-br-02" }).result =
      .error .networkNotFound ∧
    (Plugin.Del {} {} { eniName := "eni0", eniMACAddress := "02" } "c1" "").result =
      .error .networkNotFound :=
  ⟨rfl, rfl⟩

/-- Claim C1: for every network descriptor (with a supported HNS
version): if HNS already has a network with the computed name,
`FindOrCreateNetwork` succeeds making no further service calls, even
when `shouldExist` is false; if no such network exists and `shouldExist`
is true, it fails with the not-found error making no further calls; if no
such network exists and `shouldExist` is false, it issues exactly one
create call, carrying the whole creation request `networkCfg` (adapter
reference, subnet of the network address, gateway). -/
theorem C1_find_or_create_network :
    (∀ (env : HNSEnv) (s : HNSServiceState) (f : String → String) (nw : Network),
      env.hnsVersionOk = true →
      generateHNSNetworkName nw ∈ s.networks →
      (NetBuilder.FindOrCreateNetwork env s f nw).result = .ok () ∧
      (NetBuilder.FindOrCreateNetwork env s f nw).trace = []) ∧
    (∀ (env : HNSEnv) (s : HNSServiceState) (f : String → String) (nw : Network),
      env.hnsVersionOk = true →
      generateHNSNetworkName nw ∉ s.networks →
      nw.shouldExist = true →
      (NetBuilder.FindOrCreateNetwork env s f nw).result = .error .networkNotFound ∧
      (NetBuilder.FindOrCreateNetwork env s f nw).trace = []) ∧
    (∀ (env : HNSEnv) (s : HNSServiceState) (f : String → String) (nw : Network),
      env.hnsVersionOk = true →
      generateHNSNetworkName nw ∉ s.networks →
      nw.shouldExist = false →
      (NetBuilder.FindOrCreateNetwork env s f nw).trace.filter Event.isCreateNetwork =
        [.createNetwork (NetBuilder.networkCfg f nw)]) := by
  refine ⟨?_, ?_, ?_⟩
  · intro env s f nw hv hc
    constructor <;>
      simp [NetBuilder.FindOrCreateNetwork, builder.FindOrCreateHNSNetwork,
        NetBuilder.networkCfg, hv, hc]
  · intro env s f nw hv hc hse
    constructor <;>
      simp [NetBuilder.FindOrCreateNetwork, builder.FindOrCreateHNSNetwork,
        NetBuilder.networkCfg, hv, hc, hse]
  · intro env s f nw hv hc hse
    cases hco : env.createNetworkOk with
    | false =>
      simp [NetBuilder.FindOrCreateNetwork, builder.FindOrCreateHNSNetwork,
        NetBuilder.networkCfg, hv, hc, hse, hco, Event.isCreateNetwork]
    | true =>
      cases hd2 : (NetBuilder.disableInterface env (NetBuilder.mgmtIfaceName nw)).2 with
      | error e =>
        simp [NetBuilder.FindOrCreateNetwork, builder.FindOrCreateHNSNetwork,
          NetBuilder.networkCfg, NetBuilder.DeleteNetwork, hv, hc, hse, hco, hd2,
          List.filter_append, disableInterface_no_createNetwork,
          deleteHNSNetwork_no_createNetwork, Event.isCreateNetwork]
      | ok u =>
        simp [NetBuilder.FindOrCreateNetwork, builder.FindOrCreateHNSNetwork,
          NetBuilder.networkCfg, hv, hc, hse, hco, hd2, List.filter_append,
          disableInterface_no_createNetwork, Event.isCreateNetwork]

/-- Witness for C1 at concrete instances of all three cases. -/
theorem C1_find_or_create_network_witness :
    ((NetBuilder.FindOrCreateNetwork {} { networks := ["task-br-0200"] } id
        { eni := some { linkName := "eni0", macAddress := "02:00" } }).result = .ok () ∧
      (NetBuilder.FindOrCreateNetwork {} { networks := ["task-br-0200"] } id
        { eni := some { linkName := "eni0", macAddress := "02:00" } }).trace = []) ∧
    ((NetBuilder.FindOrCreateNetwork {} {} id
        { name := "n1", shouldExist := true }).result = .error .networkNotFound) ∧
    ((NetBuilder.FindOrCreateNetwork {} {} id
        { eni := some { linkName := "eni0", macAddress := "02:00" } }).trace.filter
        Event.isCreateNetwork =
      [.createNetwork (NetBuilder.networkCfg id
        { eni := some { linkName := "eni0", macAddress := "02:00" } })]) :=
  ⟨C1_find_or_create_network.1 _ _ _ _ rfl (by decide),
   (C1_find_or_create_network.2.1 _ _ _ _ rfl (by decide) rfl).1,
   C1_find_or_create_network.2.2 _ _ _ _ rfl (by decide) rfl⟩

/-- Counterexample to C3 as stated: a new network is created, disabling
the management interface fails, and the rollback's own DELETE request
fails too — `FindOrCreateNetwork` ignores that failure (Go discards
`DeleteNetwork`'s error), returns the disable error, and the just-created
network persists, so a subsequent find still finds it. -/
theorem C3_counterexample :
    (NetBuilder.FindOrCreateNetwork { ifaceFlags := none, deleteNetworkReqOk := false }
        {} id { eni := some { linkName := "eni0", macAddress := "02:00" } }).result =
      .error .ifaceNotFound ∧
    "task-br-0200" ∈
      (NetBuilder.FindOrCreateNetwork { ifaceFlags := none, deleteNetworkReqOk := false }
        {} id { eni := some { linkName := "eni0", macAddress := "02:00" } }).state.networks :=
  ⟨rfl, by decide⟩

/-- Claim C3 (amended): whenever `FindOrCreateNetwork` creates a new
network (the service did not already have one of the computed name) and
disabling the management interface then fails, the orchestrator issues a
compensating `DeleteNetwork` call for the just-created network (ignoring
its outcome) before returning the disable error; whenever the DELETE
request succeeds, the network name is absent again; and the disable step
never runs when an existing network was found. -/
theorem C3_disable_failure_rollback :
    (∀ (env : HNSEnv) (s : HNSServiceState) (f : String → String) (nw : Network) (e : Err),
      env.hnsVersionOk = true →
      generateHNSNetworkName nw ∉ s.networks →
      nw.shouldExist = false →
      env.createNetworkOk = true →
      (NetBuilder.disableInterface env (NetBuilder.mgmtIfaceName nw)).2 = .error e →
      (NetBuilder.FindOrCreateNetwork env s f nw).result = .error e ∧
      (.deleteNetworkCall (generateHNSNetworkName nw) ∈
          (NetBuilder.FindOrCreateNetwork env s f nw).trace ∧
        .deleteNetworkReq (generateHNSNetworkName nw) ∈
          (NetBuilder.FindOrCreateNetwork env s f nw).trace) ∧
      (env.deleteNetworkReqOk = true →
        generateHNSNetworkName nw ∉
          (NetBuilder.FindOrCreateNetwork env s f nw).state.networks)) ∧
    (∀ (env : HNSEnv) (s : HNSServiceState) (f : String → String) (nw : Network),
      env.hnsVersionOk = true →
      generateHNSNetworkName nw ∈ s.networks →
      (NetBuilder.FindOrCreateNetwork env s f nw).trace.filter Event.isDisableIface = [] ∧
      (NetBuilder.FindOrCreateNetwork env s f nw).result = .ok ()) := by
  constructor
  · intro env s f nw e hv hc hse hco hd
    refine ⟨?_, ⟨?_, ?_⟩, ?_⟩
    · simp [NetBuilder.FindOrCreateNetwork, builder.FindOrCreateHNSNetwork,
        NetBuilder.networkCfg, NetBuilder.DeleteNetwork, builder.DeleteHNSNetwork,
        hv, hc, hse, hco, hd]
    · cases hdel : env.deleteNetworkReqOk <;>
        simp [NetBuilder.FindOrCreateNetwork, builder.FindOrCreateHNSNetwork,
          NetBuilder.networkCfg, NetBuilder.DeleteNetwork, builder.DeleteHNSNetwork,
          hv, hc, hse, hco, hd, hdel]
    · cases hdel : env.deleteNetworkReqOk <;>
        simp [NetBuilder.FindOrCreateNetwork, builder.FindOrCreateHNSNetwork,
          NetBuilder.networkCfg, NetBuilder.DeleteNetwork, builder.DeleteHNSNetwork,
          hv, hc, hse, hco, hd, hdel]
    · intro hdel
      simp [NetBuilder.FindOrCreateNetwork, builder.FindOrCreateHNSNetwork,
        NetBuilder.networkCfg, NetBuilder.DeleteNetwork, builder.DeleteHNSNetwork,
        hv, hc, hse, hco, hd, hdel, List.mem_filter]
  · intro env s f nw hv hc
    constructor <;>
      simp [NetBuilder.FindOrCreateNetwork, builder.FindOrCreateHNSNetwork,
        NetBuilder.networkCfg, hv, hc]

/-- Witness for C3 (amended): rollback after a failed interface lookup
(with the DELETE request succeeding), and an untouched disable step for
an existing network. -/
theorem C3_disable_failure_rollback_witness :
    ((NetBuilder.FindOrCreateNetwork { ifaceFlags := none } {} id
        { eni := some { linkName := "eni0", macAddress := "02:00" } }).result =
      .error .ifaceNotFound ∧
      "task-br-0200" ∉
        (NetBuilder.FindOrCreateNetwork { ifaceFlags := none } {} id
          { eni := some { linkName := "eni0", macAddress := "02:00" } }).state.networks) ∧
    ((NetBuilder.FindOrCreateNetwork {} { networks := ["task-br-0200"] } id
        { eni := some { linkName := "eni0", macAddress := "02:00" } }).trace.filter
        Event.isDisableIface = []) :=
  ⟨⟨(C3_disable_failure_rollback.1 { ifaceFlags := none } {} id
        { eni := some { linkName := "eni0", macAddress := "02:00" } }
        .ifaceNotFound rfl (by decide) rfl rfl rfl).1,
    (C3_disable_failure_rollback.1 { ifaceFlags := none } {} id
        { eni := some { linkName := "eni0", macAddress := "02:00" } }
        .ifaceNotFound rfl (by decide) rfl rfl rfl).2.2 rfl⟩,
   (C3_disable_failure_rollback.2 _ _ _ _ rfl (by decide)).1⟩

/-- Claim C7: in every DEL invocation whose endpoint classifies as shared
(netns with the `container:` marker, no `NoInfraContainer` flag), network
deletion is never invoked: `DeleteEndpoint` marks the network descriptor
as must-exist, and `Del` then skips the `DeleteNetwork` call, succeeding
with no network-deletion activity in the trace. -/
theorem C7_shared_del_never_deletes_network :
    ∀ (env : HNSEnv) (s : HNSServiceState) (cfg : NetConfig) (cid netns : String),
      cfg.noInfraContainer = false →
      strHasPfx netns containerNSMarker = true →
      (NetBuilder.DeleteEndpoint env s (Plugin.delNetwork cfg)
          (Plugin.delEndpoint cfg cid netns)).nw.shouldExist = true ∧
      (Plugin.Del env s cfg cid netns).result = .ok () ∧
      (Plugin.Del env s cfg cid netns).trace.filter Event.isNetworkDelete = [] := by
  intro env s cfg cid netns hno hpre
  obtain ⟨hne, hnn⟩ := marker_netns_ne_empty_none netns hpre
  have hmark : (NetBuilder.DeleteEndpoint env s (Plugin.delNetwork cfg)
      (Plugin.delEndpoint cfg cid netns)).nw.shouldExist = true := by
    simp [NetBuilder.DeleteEndpoint, NetBuilder.getInfraContainerID, Plugin.delEndpoint,
      Plugin.delNetwork, hno, hne, hnn, hpre]
  refine ⟨hmark, ?_, ?_⟩
  · simp [Plugin.Del, hmark]
  · simp [Plugin.Del, hmark, netBuilderV1_DeleteEndpoint_no_networkDelete]

/-- Witness for C7: a shared-mode DEL on a live service state. -/
theorem C7_shared_del_never_deletes_network_witness :
    (Plugin.Del {}
      { networks := ["task-br-0200"], endpoints := [("task-br-0200-ep-c1", "epid-1")] }
      { eniName := "eni0", eniMACAddress := "02:00" } "c2" "container:c1").result = .ok () ∧
    (Plugin.Del {}
      { networks := ["task-br-0200"], endpoints := [("task-br-0200-ep-c1", "epid-1")] }
      { eniName := "eni0", eniMACAddress := "02:00" } "c2" "container:c1").trace.filter
      Event.isNetworkDelete = [] :=
  ⟨(C7_shared_del_never_deletes_network {}
      { networks := ["task-br-0200"], endpoints := [("task-br-0200-ep-c1", "epid-1")] }
      { eniName := "eni0", eniMACAddress := "02:00" } "c2" "container:c1"
      rfl (by decide)).2.1,
   (C7_shared_del_never_deletes_network {}
      { networks := ["task-br-0200"], endpoints := [("task-br-0200-ep-c1", "epid-1")] }
      { eniName := "eni0", eniMACAddress := "02:00" } "c2" "container:c1"
      rfl (by decide)).2.2⟩

/-- Counterexample to C2 as stated: the create call succeeds and the
attach call fails, but the compensating delete's own hot-detach fails
(its result is ignored by `FindOrCreateEndpoint`), so a subsequent find
for the endpoint name still finds it. -/
theorem C2_counterexample :
    (netBuilder.FindOrCreateEndpoint
        { hotAttachOk := false, hotDetachResult := .failed,
          hnsResponse := { id := "epid-1" } }
        {} { name := "net1" } { containerID := "c1" }).result = .error .hotAttachFailed ∧
    getHNSEndpointByName
      (netBuilder.FindOrCreateEndpoint
        { hotAttachOk := false, hotDetachResult := .failed,
          hnsResponse := { id := "epid-1" } }
        {} { name := "net1" } { containerID := "c1" }).state "net1-ep-c1" =
      some "epid-1" :=
  ⟨rfl, rfl⟩

/-- Claim C2 (amended): for every endpoint whose create call succeeds and
whose subsequent attach call fails, `FindOrCreateEndpoint` issues a
compensating `DeleteHNSEndpoint` call for the just-created endpoint
(ignoring its outcome) and propagates the attach error; whenever the
compensating delete succeeds, a subsequent find for the endpoint name
reports not-found. -/
theorem C2_attach_failure_rollback :
    ∀ (env : HNSEnv) (s : HNSServiceState) (nw : Network) (ep : Endpoint) (e : Err),
      getHNSEndpointByName s (netBuilder.endpointCfg nw ep).name = none →
      ((netBuilder.endpointCfg nw ep).container.isInfraContainer ||
        (netBuilder.endpointCfg nw ep).netNS.useNamespace) = true →
      env.createEndpointOk = true →
      (builder.AttachEndpoint env
          (createdEpState env s (netBuilder.endpointCfg nw ep).name)
          (netBuilderPopulatedCfg env nw ep)).result = .error e →
      (netBuilder.FindOrCreateEndpoint env s nw ep).result = .error e ∧
      (netBuilder.FindOrCreateEndpoint env s nw ep).trace =
        .createEndpoint (netBuilder.endpointCfg nw ep) ::
          ((builder.AttachEndpoint env
              (createdEpState env s (netBuilder.endpointCfg nw ep).name)
              (netBuilderPopulatedCfg env nw ep)).trace ++
            (builder.DeleteHNSEndpoint env
              (builder.AttachEndpoint env
                (createdEpState env s (netBuilder.endpointCfg nw ep).name)
                (netBuilderPopulatedCfg env nw ep)).state
              (netBuilderPopulatedCfg env nw ep)).trace) ∧
      ((builder.DeleteHNSEndpoint env
          (builder.AttachEndpoint env
            (createdEpState env s (netBuilder.endpointCfg nw ep).name)
            (netBuilderPopulatedCfg env nw ep)).state
          (netBuilderPopulatedCfg env nw ep)).result = .ok () →
        getHNSEndpointByName (netBuilder.FindOrCreateEndpoint env s nw ep).state
          (netBuilder.endpointCfg nw ep).name = none) := by
  intro env s nw ep e hfind hmode hcr hatt
  have hcond : (!(netBuilder.endpointCfg nw ep).container.isInfraContainer &&
      !(netBuilder.endpointCfg nw ep).netNS.useNamespace) = false := by
    cases ha : (netBuilder.endpointCfg nw ep).container.isInfraContainer <;>
      cases hb : (netBuilder.endpointCfg nw ep).netNS.useNamespace <;>
        simp_all
  have hr1 : builder.FindOrCreateHNSEndpoint env s (netBuilder.endpointCfg nw ep) =
      { state := createdEpState env s (netBuilder.endpointCfg nw ep).name,
        trace := [.createEndpoint (netBuilder.endpointCfg nw ep)],
        result := .ok (false, netBuilderPopulatedCfg env nw ep) } := by
    simp [builder.FindOrCreateHNSEndpoint, hfind, hcond, hcr, createdEpState,
      netBuilderPopulatedCfg]
  have hmodeP : ((netBuilderPopulatedCfg env nw ep).container.isInfraContainer ||
      (netBuilderPopulatedCfg env nw ep).netNS.useNamespace) = true := by
    simpa [netBuilderPopulatedCfg, builder.populateEndpointFieldsFromResponse] using hmode
  have hnameP : (netBuilderPopulatedCfg env nw ep).name =
      (netBuilder.endpointCfg nw ep).name := by
    simp [netBuilderPopulatedCfg, builder.populateEndpointFieldsFromResponse]
  refine ⟨?_, ?_, ?_⟩
  · simp [netBuilder.FindOrCreateEndpoint, hr1, hatt]
  · simp [netBuilder.FindOrCreateEndpoint, hr1, hatt]
  · intro hdok
    have h := deleteHNSEndpoint_ok_removes env
      (builder.AttachEndpoint env (createdEpState env s (netBuilder.endpointCfg nw ep).name)
        (netBuilderPopulatedCfg env nw ep)).state
      (netBuilderPopulatedCfg env nw ep) hmodeP hdok
    rw [hnameP] at h
    simpa [netBuilder.FindOrCreateEndpoint, hr1, hatt] using h

/-- Witness for C2 (amended): infra mode, attach fails, detach tolerated,
compensating delete succeeds. -/
theorem C2_attach_failure_rollback_witness :
    (netBuilder.FindOrCreateEndpoint
        { hotAttachOk := false, hnsResponse := { id := "epid-1" } }
        {} { name := "net1" } { containerID := "c1" }).result = .error .hotAttachFailed ∧
    getHNSEndpointByName
      (netBuilder.FindOrCreateEndpoint
        { hotAttachOk := false, hnsResponse := { id := "epid-1" } }
        {} { name := "net1" } { containerID := "c1" }).state "net1-ep-c1" = none :=
  ⟨(C2_attach_failure_rollback { hotAttachOk := false, hnsResponse := { id := "epid-1" } }
      {} { name := "net1" } { containerID := "c1" } .hotAttachFailed rfl rfl rfl rfl).1,
   (C2_attach_failure_rollback { hotAttachOk := false, hnsResponse := { id := "epid-1" } }
      {} { name := "net1" } { containerID := "c1" } .hotAttachFailed rfl rfl rfl rfl).2.2 rfl⟩

/-- Claim C6 (amended): for infra and external-namespace modes, when no
endpoint with the derived name exists and the create call succeeds,
`FindOrCreateEndpoint` issues the create call carrying the built request
and then issues the attach call; in shared mode, when no endpoint with
the derived name exists, it returns a not-found error without issuing any
create call. -/
theorem C6_create_then_attach :
    (∀ (env : HNSEnv) (s : HNSServiceState) (nw : Network) (ep : Endpoint),
      getHNSEndpointByName s (netBuilder.endpointCfg nw ep).name = none →
      ((netBuilder.endpointCfg nw ep).container.isInfraContainer ||
        (netBuilder.endpointCfg nw ep).netNS.useNamespace) = true →
      env.createEndpointOk = true →
      (netBuilder.FindOrCreateEndpoint env s nw ep).trace.take 2 =
        [.createEndpoint (netBuilder.endpointCfg nw ep),
         .attachCall (netBuilder.endpointCfg nw ep).name]) ∧
    (∀ (env : HNSEnv) (s : HNSServiceState) (nw : Network) (ep : Endpoint),
      getHNSEndpointByName s (netBuilder.endpointCfg nw ep).name = none →
      ((netBuilder.endpointCfg nw ep).container.isInfraContainer ||
        (netBuilder.endpointCfg nw ep).netNS.useNamespace) = false →
      (netBuilder.FindOrCreateEndpoint env s nw ep).result =
        .error (.endpointNotFound (netBuilder.endpointCfg nw ep).name) ∧
      (netBuilder.FindOrCreateEndpoint env s nw ep).trace = []) := by
  constructor
  · intro env s nw ep hfind hmode hcr
    have hcond : (!(netBuilder.endpointCfg nw ep).container.isInfraContainer &&
        !(netBuilder.endpointCfg nw ep).netNS.useNamespace) = false := by
      cases ha : (netBuilder.endpointCfg nw ep).container.isInfraContainer <;>
        cases hb : (netBuilder.endpointCfg nw ep).netNS.useNamespace <;>
          simp_all
    have hr1 : builder.FindOrCreateHNSEndpoint env s (netBuilder.endpointCfg nw ep) =
        { state := createdEpState env s (netBuilder.endpointCfg nw ep).name,
          trace := [.createEndpoint (netBuilder.endpointCfg nw ep)],
          result := .ok (false, netBuilderPopulatedCfg env nw ep) } := by
      simp [builder.FindOrCreateHNSEndpoint, hfind, hcond, hcr, createdEpState,
        netBuilderPopulatedCfg]
    have hnameP : (netBuilderPopulatedCfg env nw ep).name =
        (netBuilder.endpointCfg nw ep).name := by
      simp [netBuilderPopulatedCfg, builder.populateEndpointFieldsFromResponse]
    cases hatt : (builder.AttachEndpoint env
        (createdEpState env s (netBuilder.endpointCfg nw ep).name)
        (netBuilderPopulatedCfg env nw ep)).result with
    | ok u =>
      simp only [builder.AttachEndpoint] at hatt
      simp [netBuilder.FindOrCreateEndpoint, hr1, builder.AttachEndpoint, hatt, hnameP,
        List.take_succ_cons]
    | error e =>
      simp only [builder.AttachEndpoint] at hatt
      simp [netBuilder.FindOrCreateEndpoint, hr1, builder.AttachEndpoint, hatt, hnameP,
        List.take_succ_cons]
  · intro env s nw ep hfind hmode
    have ha : (netBuilder.endpointCfg nw ep).container.isInfraContainer = false := by
      cases hx : (netBuilder.endpointCfg nw ep).container.isInfraContainer
      · rfl
      · rw [hx] at hmode; simp at hmode
    have hb : (netBuilder.endpointCfg nw ep).netNS.useNamespace = false := by
      cases hx : (netBuilder.endpointCfg nw ep).netNS.useNamespace
      · rfl
      · rw [hx] at hmode; simp at hmode
    constructor <;>
      simp [netBuilder.FindOrCreateEndpoint, builder.FindOrCreateHNSEndpoint,
        hfind, ha, hb]

/-- Witness for C6 (amended): create-then-attach for an infra endpoint
and for an HCS-namespace endpoint; not-found error for a shared one. -/
theorem C6_create_then_attach_witness :
    (netBuilder.FindOrCreateEndpoint { hnsResponse := { id := "epid-1" } }
        {} { name := "net1" } { containerID := "c1" }).trace.take 2 =
      [.createEndpoint (netBuilder.endpointCfg { name := "net1" } { containerID := "c1" }),
       .attachCall "net1-ep-c1"] ∧
    (netBuilder.FindOrCreateEndpoint { hnsResponse := { id := "epid-1" } }
        { namespaces := [("ns1", [])] } { name := "net1" }
        { containerID := "c3", netNSName := "ns1" }).trace.take 2 =
      [.createEndpoint (netBuilder.endpointCfg { name := "net1" }
          { containerID := "c3", netNSName := "ns1" }),
       .attachCall "net1-ep-ns1"] ∧
    (netBuilder.FindOrCreateEndpoint { hnsResponse := { id := "epid-1" } }
        {} { name := "net1" } { containerID := "c2", netNSName := "container:c1" }).result =
      .error (.endpointNotFound "net1-ep-c1") :=
  ⟨C6_create_then_attach.1 { hnsResponse := { id := "epid-1" } } {}
      { name := "net1" } { containerID := "c1" } rfl rfl rfl,
   C6_create_then_attach.1 { hnsResponse := { id := "epid-1" } }
      { namespaces := [("ns1", [])] } { name := "net1" }
      { containerID := "c3", netNSName := "ns1" } rfl rfl rfl,
   (C6_create_then_attach.2 { hnsResponse := { id := "epid-1" } } {}
      { name := "net1" } { containerID := "c2", netNSName := "container:c1" } rfl rfl).1⟩

/-- Claim C8 (amended): `DeleteEndpoint` deletes the endpoint object for
infra mode and also for HCS-namespace (external-namespace) mode, whose
delete path removes the endpoint from the namespace and then deletes it;
only in shared mode does just detachment occur, the endpoint object
persisting (and the network being marked must-exist). -/
theorem C8_delete_endpoint_modes :
    (∀ (env : HNSEnv) (s : HNSServiceState) (nw : Network) (ep : Endpoint) (i : String),
      (netBuilder.getNamespaceIdentifier ep).1 = NSType.infraContainerNS →
      getHNSEndpointByName s (generateHNSEndpointName (generateHNSNetworkName nw)
        (netBuilder.getNamespaceIdentifier ep).2) = some i →
      env.hotDetachResult ≠ HotDetachResult.failed →
      env.deleteEndpointReqOk = true →
      (netBuilder.DeleteEndpoint env s nw ep).result = .ok () ∧
      getHNSEndpointByName (netBuilder.DeleteEndpoint env s nw ep).state
        (generateHNSEndpointName (generateHNSNetworkName nw)
          (netBuilder.getNamespaceIdentifier ep).2) = none ∧
      .deleteEndpointReq (generateHNSEndpointName (generateHNSNetworkName nw)
          (netBuilder.getNamespaceIdentifier ep).2) ∈
        (netBuilder.DeleteEndpoint env s nw ep).trace) ∧
    (∀ (env : HNSEnv) (s : HNSServiceState) (nw : Network) (ep : Endpoint) (i : String),
      (netBuilder.getNamespaceIdentifier ep).1 = NSType.nonInfraContainerNS →
      getHNSEndpointByName s (generateHNSEndpointName (generateHNSNetworkName nw)
        (netBuilder.getNamespaceIdentifier ep).2) = some i →
      env.hotDetachResult ≠ HotDetachResult.failed →
      (netBuilder.DeleteEndpoint env s nw ep).result = .ok () ∧
      (netBuilder.DeleteEndpoint env s nw ep).state = s ∧
      (netBuilder.DeleteEndpoint env s nw ep).trace.filter Event.isDeleteEndpointReq = []) ∧
    (∀ (env : HNSEnv) (s : HNSServiceState) (nw : Network) (ep : Endpoint)
        (i : String) (ids : List String),
      (netBuilder.getNamespaceIdentifier ep).1 = NSType.hcsNamespace →
      getHNSEndpointByName s (generateHNSEndpointName (generateHNSNetworkName nw)
        (netBuilder.getNamespaceIdentifier ep).2) = some i →
      getNamespaceEndpointIds s ep.netNSName = some ids →
      env.removeNsOk = true →
      env.deleteEndpointReqOk = true →
      (netBuilder.DeleteEndpoint env s nw ep).result = .ok () ∧
      getHNSEndpointByName (netBuilder.DeleteEndpoint env s nw ep).state
        (generateHNSEndpointName (generateHNSNetworkName nw)
          (netBuilder.getNamespaceIdentifier ep).2) = none ∧
      .deleteEndpointReq (generateHNSEndpointName (generateHNSNetworkName nw)
          (netBuilder.getNamespaceIdentifier ep).2) ∈
        (netBuilder.DeleteEndpoint env s nw ep).trace) := by
  refine ⟨?_, ?_, ?_⟩
  · intro env s nw ep i hns hfind hdet hreq
    refine ⟨?_, ?_, ?_⟩ <;>
      simp [netBuilder.DeleteEndpoint, builder.DeleteHNSEndpoint,
        builder.deleteHNSEndpointV1, hns, hfind, hdet, hreq,
        getHNSEndpointByName_of_filtered]
  · intro env s nw ep i hns hfind hdet
    refine ⟨?_, ?_, ?_⟩ <;>
      simp [netBuilder.DeleteEndpoint, builder.DeleteHNSEndpoint,
        builder.deleteHNSEndpointV1, hns, hfind, hdet, Event.isDeleteEndpointReq]
  · intro env s nw ep i ids hns hfind hnsids hrm hreq
    refine ⟨?_, ?_, ?_⟩ <;>
      simp [netBuilder.DeleteEndpoint, builder.DeleteHNSEndpoint,
        builder.deleteHNSEndpointV2, hns, hfind, hnsids, hrm, hreq,
        getHNSEndpointByName_of_filtered]

/-- Witness for C8 (amended) at the three concrete modes. -/
theorem C8_delete_endpoint_modes_witness :
    (getHNSEndpointByName
      (netBuilder.DeleteEndpoint {}
        { endpoints := [("task-br-02-ep-c1", "epid-1")] }
        { eni := some { linkName := "eni0", macAddress := "02" } }
        { containerID := "c1" }).state "task-br-02-ep-c1" = none) ∧
    ((netBuilder.DeleteEndpoint {}
        { endpoints := [("task-br-02-ep-c1", "epid-1")] }
        { eni := some { linkName := "eni0", macAddress := "02" } }
        { containerID := "c2", netNSName := "container:c1" }).state =
      { endpoints := [("task-br-02-ep-c1", "epid-1")] }) ∧
    (.deleteEndpointReq "task-br-02-ep-ns1" ∈
      (netBuilder.DeleteEndpoint {}
        { endpoints := [("task-br-02-ep-ns1", "epid-9")],
          namespaces := [("ns1", ["epid-9"])] }
        { eni := some { linkName := "eni0", macAddress := "02" } }
        { containerID := "c3", netNSName := "ns1" }).trace) :=
  ⟨(C8_delete_endpoint_modes.1 {} { endpoints := [("task-br-02-ep-c1", "epid-1")] }
      { eni := some { linkName := "eni0", macAddress := "02" } }
      { containerID := "c1" } "epid-1" rfl rfl (by decide) rfl).2.1,
   (C8_delete_endpoint_modes.2.1 {} { endpoints := [("task-br-02-ep-c1", "epid-1")] }
      { eni := some { linkName := "eni0", macAddress := "02" } }
      { containerID := "c2", netNSName := "container:c1" } "epid-1"
      rfl rfl (by decide)).2.1,
   (C8_delete_endpoint_modes.2.2 {}
      { endpoints := [("task-br-02-ep-ns1", "epid-9")], namespaces := [("ns1", ["epid-9"])] }
      { eni := some { linkName := "eni0", macAddress := "02" } }
      { containerID := "c3", netNSName := "ns1" } "epid-9" ["epid-9"]
      rfl rfl rfl rfl rfl).2.2⟩

/-- Claim C9 (amended): `DeleteHNSNetwork` fails with the not-found error
when no network with the given name exists (leaving the state unchanged),
so a DEL invocation whose network-delete step runs for an absent network
fails with that error. -/
theorem C9_delete_absent_network_fails :
    (∀ (env : HNSEnv) (s : HNSServiceState) (n : String),
      n ∉ s.networks →
      (builder.DeleteHNSNetwork env s { name := n }).result = .error .networkNotFound ∧
      (builder.DeleteHNSNetwork env s { name := n }).state = s) ∧
    (∀ (env : HNSEnv) (s : HNSServiceState) (cfg : NetConfig) (cid : String),
      cfg.useExistingNetwork = false →
      cfg.noInfraContainer = false →
      generateHNSNetworkName (Plugin.delNetwork cfg) ∉ s.networks →
      (Plugin.Del env s cfg cid "").result = .error .networkNotFound) := by
  constructor
  · intro env s n h
    constructor <;> simp [builder.DeleteHNSNetwork, h]
  · intro env s cfg cid huse hno hnotin
    have hnw : (NetBuilder.DeleteEndpoint env s (Plugin.delNetwork cfg)
        (Plugin.delEndpoint cfg cid "")).nw =
        { Plugin.delNetwork cfg with
          name := generateHNSNetworkName (Plugin.delNetwork cfg) } := by
      simp [NetBuilder.DeleteEndpoint, NetBuilder.getInfraContainerID,
        Plugin.delEndpoint, hno]
    have hnets := netBuilderV1_DeleteEndpoint_networks env s (Plugin.delNetwork cfg)
      (Plugin.delEndpoint cfg cid "")
    simp only [Plugin.delNetwork, huse] at hnotin hnw hnets
    simp [Plugin.Del, Plugin.delNetwork, huse, hnw, NetBuilder.DeleteNetwork,
      builder.DeleteHNSNetwork, hnets, hnotin]

/-- Witness for C9 (amended): an absent network name and a DEL invocation
for an absent network. -/
theorem C9_delete_absent_network_fails_witness :
    (builder.DeleteHNSNetwork {} {} { name := "task-br-gone" }).result =
      .error .networkNotFound ∧
    (Plugin.Del {} {} { eniName := "eni0", eniMACAddress := "02:00" } "c1" "").result =
      .error .networkNotFound :=
  ⟨(C9_delete_absent_network_fails.1 {} {} "task-br-gone" (by decide)).1,
   C9_delete_absent_network_fails.2 {} {}
     { eniName := "eni0", eniMACAddress := "02:00" } "c1" rfl rfl (by decide)⟩

end VpcEni
